import Mathlib

/-!
Verification of the adaptive SSAT practice-test engine: a shallow embedding
of the scoring pipeline (`scoring.py`), the question pool cache
(`question_cache.py`), the leveling engine (`leveling.py`) and the session
orchestrator's question loop and finalization (`test_runner.py`),
with theorems settling the specification's claims about them.

Conventions: Python floats that hold exact fractional scores and accuracies
are modelled as rationals; Python ints as `Int` or `Nat`; `None` as
`Option.none`.  Database and generator collaborators are modelled as
explicit inputs (lists returned by the queries, the generated batch).
Bookkeeping fields never read by the functions under study (row ids,
timestamps, student ids) are omitted from the record models.
-/

/-- `models.Answer` (the fields read by the scoring and session code):
selected choice letter (`none` = skipped), derived correctness flag,
elapsed seconds. -/
structure Answer where
  question_id : Nat
  selected_answer : Option String
  is_correct : Bool
  time_spent_seconds : ℚ
deriving DecidableEq, Repr

/-- `models.Question` (the fields read by the cache and session code). -/
structure Question where
  id : Nat
  level : String
  question_type : String
  difficulty : Int
  stem : String
  correct_answer : String
deriving DecidableEq, Repr

/-- `config.LevelConfig` (the scoring-relevant fields). -/
structure LevelConfig where
  level_name : String
  score_min : Int
  score_max : Int
  has_penalty : Bool
  penalty_amount : ℚ
deriving DecidableEq, Repr

/-- `config.LEVEL_CONFIGS` as the lookup `dict.get`: the two configured
levels, `none` for any other key. -/
def LEVEL_CONFIGS : String → Option LevelConfig := fun level =>
  if level = "elementary" then
    some ⟨"elementary", 300, 600, false, 0⟩
  else if level = "middle" then
    some ⟨"middle", 440, 710, true, 1/4⟩
  else none

/-- `scoring.calculate_raw_score`: returns
`(raw_score, correct_count, wrong_count, skipped_count)`.
`correct` counts answers whose `is_correct` flag is truthy, `wrong` counts
non-null selections that are not correct, `skipped` counts null selections;
the raw score subtracts the configured penalty per wrong answer (when the
level has one) and is floored at 0. -/
def calculate_raw_score (answers : List Answer) (level : String) :
    ℚ × Nat × Nat × Nat :=
  let level_config := LEVEL_CONFIGS level
  let has_penalty := (level_config.map (·.has_penalty)).getD false
  let penalty := (level_config.map (·.penalty_amount)).getD 0
  let correct := answers.countP (·.is_correct)
  let wrong := answers.countP (fun a => a.selected_answer.isSome && !a.is_correct)
  let skipped := answers.countP (·.selected_answer.isNone)
  let raw : ℚ := if has_penalty then correct - wrong * penalty else correct
  (max 0 raw, correct, wrong, skipped)

/-- The concrete answer set of the spec's scenario: middle level, 25
questions, 20 answered correctly, 5 answered wrongly, 0 skipped. -/
def scenarioAnswers : List Answer :=
  List.replicate 20 ⟨0, some "A", true, 0⟩ ++
    List.replicate 5 ⟨0, some "B", false, 0⟩

/-- Python's built-in `round` on an exact value: round half to even,
returning an integer. -/
def pyRound (q : ℚ) : Int :=
  let f := q.floor
  let r := q - f
  if r < 1/2 then f
  else if 1/2 < r then f + 1
  else if f % 2 = 0 then f else f + 1

/-- `scoring._fallback_percentile`: table-free percentile estimate from the
level's scaled-score range, clamped to [1, 99]; degenerate configurations
give 50. -/
def fallback_percentile (scaled_score : Int) (level : String) : Int :=
  match LEVEL_CONFIGS level with
  | none => 50
  | some level_config =>
    let score_min := level_config.score_min
    let score_max := level_config.score_max
    if score_max = score_min then 50
    else
      let fraction : ℚ := ((scaled_score : ℚ) - score_min) / ((score_max : ℚ) - score_min)
      max 1 (min 99 (pyRound (fraction * 98 + 1)))

/-- The bracketing scan of `scoring.lookup_percentile`: walk adjacent pairs
of the breakpoint table and linearly interpolate inside the first bracket
containing the score (`none` when no bracket matches). -/
def find_bracket (scaled_score : Int) : List (Int × Int) → Option Int
  | (s1, p1) :: (s2, p2) :: rest =>
    if s1 ≤ scaled_score ∧ scaled_score ≤ s2 then
      some (if s2 = s1 then p1
        else
          let fraction : ℚ := ((scaled_score : ℚ) - s1) / ((s2 : ℚ) - s1)
          pyRound ((p1 : ℚ) + fraction * ((p2 : ℚ) - p1)))
    else find_bracket scaled_score ((s2, p2) :: rest)
  | _ => none

/-- The interpolation policy of `scoring.lookup_percentile` applied to one
nonempty breakpoint table: at or below the first breakpoint take its
percentile, at or above the last take its percentile, otherwise
interpolate in the bracketing pair (falling through to the last entry). -/
def interpolate_percentile (grade_data : List (Int × Int)) (scaled_score : Int) : Int :=
  match grade_data with
  | [] => 0
  | first :: rest =>
    if scaled_score ≤ first.1 then first.2
    else
      let last := (first :: rest).getLast (by simp)
      if last.1 ≤ scaled_score then last.2
      else (find_bracket scaled_score (first :: rest)).getD last.2

/-- The percentile-tables asset: per level, per section, per grade a list of
`(score, percentile)` breakpoints.  Absent keys give `[]`, exactly as the
chained `dict.get(…, {})`/`get(…, [])` in the source. -/
def TableFn : Type := String → String → Int → List (Int × Int)

/-- `scoring.lookup_percentile`.  `tables = none` models the file-load
failure branch (missing or malformed JSON).  When the exact grade has no
breakpoint list, the loop `for g in range(grade - 1, grade + 2)` tries
grades `grade−1`, `grade`, `grade+1` in that order; if all are empty the
table-free fallback is used. -/
def lookup_percentile (tables : Option TableFn) (scaled_score : Int)
    (level : String) (section_name : String) (grade : Int) : Int :=
  match tables with
  | none => fallback_percentile scaled_score level
  | some t =>
    let grade_data := t level section_name grade
    let grade_data :=
      if grade_data.isEmpty then
        match [grade - 1, grade, grade + 1].find?
            (fun g => !(t level section_name g).isEmpty) with
        | some g => t level section_name g
        | none => []
      else grade_data
    if grade_data.isEmpty then fallback_percentile scaled_score level
    else interpolate_percentile grade_data scaled_score

/-- Python `str.lower()` (on the ASCII alphabet the sources use). -/
def py_lower (s : String) : String := ⟨s.data.map Char.toLower⟩

/-- Python `str.upper()` (on the ASCII alphabet the sources use). -/
def py_upper (s : String) : String := ⟨s.data.map Char.toUpper⟩

def is_ascii_space (c : Char) : Bool :=
  c = ' ' || c = '\t' || c = '\n' || c = '\r' || c = '\x0b' || c = '\x0c'

/-- Python `str.strip()`: drop leading and trailing whitespace. -/
def py_strip (s : String) : String :=
  ⟨((s.data.dropWhile is_ascii_space).reverse.dropWhile is_ascii_space).reverse⟩

def chars_lead : List Char → List Char → Bool
  | [], _ => true
  | _ :: _, [] => false
  | a :: as, b :: bs => a = b && chars_lead as bs

def chars_occur (needle : List Char) : List Char → Bool
  | [] => needle.isEmpty
  | b :: rest => chars_lead needle (b :: rest) || chars_occur needle rest

/-- Python's substring test `needle in haystack`. -/
def str_in (needle haystack : String) : Bool :=
  chars_occur needle.data haystack.data

/-- Stem normalization used by `QuestionCache._deduplicate`:
`q.stem.strip().lower()`. -/
def normalized_stem (q : Question) : String := py_lower (py_strip q.stem)

/-- The loop body of `QuestionCache._deduplicate`, carrying the
`seen_stems` set. -/
def deduplicate_go (seen_stems : List String) : List Question → List Question
  | [] => []
  | q :: rest =>
    let normalized := normalized_stem q
    if normalized ∈ seen_stems then deduplicate_go seen_stems rest
    else q :: deduplicate_go (normalized :: seen_stems) rest

/-- `QuestionCache._deduplicate`: keep the first question bearing each
case/edge-whitespace-normalized stem, dropping later duplicates.  Only the
given list's own stems are consulted. -/
def deduplicate (questions : List Question) : List Question :=
  deduplicate_go [] questions

/-- The `for q in more` loop of `QuestionCache.get_questions` step 2:
append questions whose id is not in `seen_ids`, growing the set as it
goes. -/
def append_unseen_ids (seen_ids : List Nat) : List Question → List Question
  | [] => []
  | q :: rest =>
    if q.id ∈ seen_ids then append_unseen_ids seen_ids rest
    else q :: append_unseen_ids (q.id :: seen_ids) rest

/-- `QuestionCache.get_questions`, with the storage and generation
collaborators made explicit:

* `pool_exact` — the rows `db.get_unseen_questions` can return for this
  (student, type, level, difficulty); the call's `limit` argument becomes
  `List.take`;
* `pool_any` — likewise for `db.get_unseen_questions_any_difficulty`;
* `generated` — the batch returned by the generator, `none` when it raises
  `QuestionGenerationError` (then the status callback fires and the
  questions gathered so far are returned).  The size requested from the
  generator — `max(shortfall, QUESTIONS_PER_BATCH)`, reshaped into
  passages for reading comprehension — only parameterizes the collaborator
  and does not constrain the batch it hands back.

Generated survivors of `deduplicate` are persisted and appended; the
result is truncated to `count`. -/
def get_questions (pool_exact pool_any : List Question)
    (generated : Option (List Question)) (count : Nat) : List Question :=
  let questions := pool_exact.take count
  if count ≤ questions.length then questions.take count
  else
    let more := pool_any.take (count - questions.length)
    let questions := questions ++ append_unseen_ids (questions.map (·.id)) more
    if count ≤ questions.length then questions.take count
    else
      match generated with
      | none => questions.take count
      | some new_questions =>
        let new_questions := deduplicate new_questions
        (questions ++ new_questions).take count

/-! Leveling engine (`leveling.py`) and its configuration constants. -/

def DIFFICULTY_MIN : ℚ := 1
def DIFFICULTY_MAX : ℚ := 5
def DIFFICULTY_STEP : ℚ := 1/2
def DIFFICULTY_UP_THRESHOLD : ℚ := 85/100
def DIFFICULTY_DOWN_THRESHOLD : ℚ := 50/100
def MIN_QUESTIONS_FOR_ADJUST : Nat := 5

/-- `models.TopicMastery` (the fields `_update_topic` reads and writes). -/
structure TopicMastery where
  difficulty_level : ℚ
  total_attempted : Nat
  total_correct : Nat
  last_50_attempted : Nat
  last_50_correct : Nat
deriving DecidableEq, Repr

/-- `LevelingEngine._update_topic`, with the collaborators made explicit:
`batch` is the `is_correct` flag of each `(answer, question)` pair of this
topic's graded batch, and `recent` is the `is_correct` flag of the rows
`db.get_answers_for_student_topic(…, limit=50)` returns after this batch
is persisted.  An empty batch returns the mastery untouched (the source
returns before loading or writing anything).  Totals and the last-50
window are updated first; then the difficulty moves one step up (capped at
`DIFFICULTY_MAX`) when the batch accuracy and updated all-time accuracy
clear the upper thresholds, one step down (floored at `DIFFICULTY_MIN`)
when both fall below the lower thresholds, and only once the updated
`total_attempted` has reached `MIN_QUESTIONS_FOR_ADJUST`. -/
def update_topic (mastery : TopicMastery) (batch : List Bool)
    (recent : List Bool) : TopicMastery :=
  if batch.isEmpty then mastery
  else
    let session_correct := batch.count true
    let session_total := batch.length
    let session_accuracy : ℚ :=
      if 0 < session_total then (session_correct : ℚ) / session_total else 0
    let mastery :=
      { mastery with
        total_attempted := mastery.total_attempted + session_total
        total_correct := mastery.total_correct + session_correct
        last_50_attempted := min recent.length 50
        last_50_correct := (recent.take 50).count true }
    let overall_accuracy : ℚ :=
      if 0 < mastery.total_attempted then
        (mastery.total_correct : ℚ) / mastery.total_attempted
      else 0
    if MIN_QUESTIONS_FOR_ADJUST ≤ mastery.total_attempted then
      if DIFFICULTY_UP_THRESHOLD ≤ session_accuracy ∧
          (80/100 : ℚ) ≤ overall_accuracy then
        { mastery with
          difficulty_level :=
            min DIFFICULTY_MAX (mastery.difficulty_level + DIFFICULTY_STEP) }
      else if session_accuracy < DIFFICULTY_DOWN_THRESHOLD ∧
          overall_accuracy < (60/100 : ℚ) then
        { mastery with
          difficulty_level :=
            max DIFFICULTY_MIN (mastery.difficulty_level - DIFFICULTY_STEP) }
      else mastery
    else mastery

/-- `models.Student` (the fields the leveling transitions read and write). -/
structure Student where
  level : String
  grade : Int
deriving DecidableEq, Repr

/-- `LevelingEngine.level_down`: step a middle-level student down one grade
(or back to elementary grade 4 from the bottom middle grade), an
elementary student down one grade only while above grade 3; the record is
then re-persisted unconditionally. -/
def level_down (student : Student) : Student :=
  if student.level = "middle" then
    if 5 < student.grade then { student with grade := student.grade - 1 }
    else { student with level := "elementary", grade := 4 }
  else if student.level = "elementary" then
    if 3 < student.grade then { student with grade := student.grade - 1 }
    else student
  else student

/-! Session orchestrator (`test_runner.py`): the question loop and the
full-test finalization. -/

/-- The skipped-answer record built by the time-expiry fast-forward in
`TestRunner._run_section`: no selection, not correct, zero elapsed time. -/
def skip_answer (q : Question) : Answer :=
  { question_id := q.id
    selected_answer := none
    is_correct := false
    time_spent_seconds := 0 }

/-- The answer record built for a presented question in
`TestRunner._run_section`.  The stored flag is
`is_correct if selected else False`: a null or empty (falsy) selection
stores `false`, otherwise the case-insensitive comparison with the
question's correct letter. -/
def answered_answer (q : Question) (selected : Option String) (elapsed : ℚ) :
    Answer :=
  { question_id := q.id
    selected_answer := selected
    is_correct :=
      match selected with
      | none => false
      | some s => if s.isEmpty then false
          else py_upper s = py_upper q.correct_answer
    time_spent_seconds := elapsed }

/-- The `for i, question in enumerate(questions)` loop of
`TestRunner._run_section`, over the remaining questions with `i` the
(0-based) index of the next question.  `time_up i` is what
`timer.is_time_up()` reports before question `i` is presented (always
`false` models an untimed run); `selected i` and `elapsed i` are the
student's input and its wall-clock duration for question `i`.  When time
is up, every remaining question — the current one included — is recorded
as a skipped answer in one pass and the loop breaks. -/
def run_section_go (time_up : Nat → Bool) (selected : Nat → Option String)
    (elapsed : Nat → ℚ) : Nat → List Question → List Answer
  | _, [] => []
  | i, q :: rest =>
    if time_up i then (q :: rest).map skip_answer
    else answered_answer q (selected i) (elapsed i) ::
      run_section_go time_up selected elapsed (i + 1) rest

/-- `TestRunner._run_section` (the answer-producing core; rendering calls
are I/O with no effect on the returned answers). -/
def run_section (questions : List Question) (time_up : Nat → Bool)
    (selected : Nat → Option String) (elapsed : Nat → ℚ) : List Answer :=
  run_section_go time_up selected elapsed 0 questions

/-- `models.TestSession` (the score fields `_finalize_full_test` reads and
writes). -/
structure TestSession where
  verbal_raw : Option ℚ
  verbal_scaled : Option Int
  verbal_percentile : Option Int
  quantitative_raw : Option ℚ
  quantitative_scaled : Option Int
  quantitative_percentile : Option Int
  reading_raw : Option ℚ
  reading_scaled : Option Int
  reading_percentile : Option Int
  total_scaled : Option Int
deriving DecidableEq, Repr

/-- `models.SectionResult` (the fields `_finalize_full_test` reads). -/
structure SectionResult where
  section_name : String
  raw_score : ℚ
  scaled_score : Int
  percentile : Int
deriving DecidableEq, Repr

/-- `scoring.map_section_name_to_score_field`: substring dispatch on the
lowercased section name, defaulting to `"verbal"`. -/
def map_section_name_to_score_field (section_name : String) : String :=
  let name_lower := py_lower section_name
  if str_in "verbal" name_lower then "verbal"
  else if str_in "quant" name_lower || str_in "math" name_lower then "quantitative"
  else if str_in "reading" name_lower then "reading"
  else "verbal"

/-- Python `x or 0` on an optional integer: `None` and `0` both give 0. -/
def or_zero (x : Option Int) : Int := x.getD 0

/-- One iteration of the aggregation loop in
`TestRunner._finalize_full_test`: quantitative results combine with an
already-present quantitative sub-section (raw scores add; scaled scores
and percentiles average with Python's floor division `//`), every other
case overwrites the category's three fields. -/
def apply_section_result (session : TestSession) (result : SectionResult) :
    TestSession :=
  let field := map_section_name_to_score_field result.section_name
  if field = "quantitative" then
    match session.quantitative_raw with
    | some current_raw =>
      { session with
        quantitative_raw := some (current_raw + result.raw_score)
        quantitative_scaled := some
          ((or_zero session.quantitative_scaled + result.scaled_score).fdiv 2)
        quantitative_percentile := some
          ((or_zero session.quantitative_percentile + result.percentile).fdiv 2) }
    | none =>
      { session with
        quantitative_raw := some result.raw_score
        quantitative_scaled := some result.scaled_score
        quantitative_percentile := some result.percentile }
  else if field = "reading" then
    { session with
      reading_raw := some result.raw_score
      reading_scaled := some result.scaled_score
      reading_percentile := some result.percentile }
  else
    { session with
      verbal_raw := some result.raw_score
      verbal_scaled := some result.scaled_score
      verbal_percentile := some result.percentile }

/-- Python `if s: total += s` on an optional integer: `None` and `0`
contribute nothing. -/
def truthy_contribution (s : Option Int) : Int :=
  match s with
  | none => 0
  | some v => if v = 0 then 0 else v

/-- The score-aggregation part of `TestRunner._finalize_full_test`: fold
every section result into the session's per-category fields, then total
the three scaled scores (a falsy field contributing 0). -/
def finalize_full_test (session : TestSession)
    (section_results : List SectionResult) : TestSession :=
  let session := section_results.foldl apply_section_result session
  let total := truthy_contribution session.verbal_scaled +
    truthy_contribution session.quantitative_scaled +
    truthy_contribution session.reading_scaled
  { session with total_scaled := some total }

/-! Concrete instances used by the witnesses and counterexamples below. -/

/-- A percentile-tables asset holding a breakpoint list only at grade 6 of
the elementary Verbal section: two grades above the requested grade 4,
outside the `range(grade - 1, grade + 2)` search window. -/
def grade_plus_two_table : TableFn := fun level section_name g =>
  if level = "elementary" ∧ section_name = "Verbal" ∧ g = 6 then
    [(300, 10), (600, 90)]
  else []

/-- A percentile-tables asset holding a breakpoint list only at grade 3 of
the elementary Verbal section. -/
def grade_minus_one_table : TableFn := fun level section_name g =>
  if level = "elementary" ∧ section_name = "Verbal" ∧ g = 3 then
    [(300, 10), (600, 90)]
  else []

/-- A short middle-level question with the given id and stem. -/
def sample_question (i : Nat) (s : String) : Question :=
  ⟨i, "middle", "synonym", 3, s, "A"⟩

/-- A chosen pool question whose stem will collide with a generated one. -/
def dup_chosen : Question := sample_question 1 "What is 2+2?"

/-- A generated question whose stem normalizes to the chosen one's. -/
def dup_generated : Question := sample_question 100 "  what is 2+2? "

def pool_exact_w : List Question :=
  [sample_question 1 "e1", sample_question 2 "e2", sample_question 3 "e3"]

def pool_any_w : List Question :=
  [sample_question 4 "a1", sample_question 5 "a2"]

/-- A generated batch of five items of which the last repeats the first's
stem up to case and edge whitespace: four survive deduplication. -/
def generated_w : List Question :=
  [sample_question 11 "g1", sample_question 12 "g2", sample_question 13 "g3",
    sample_question 14 "g4", sample_question 15 "G1 "]

/-- Ten questions for a concrete section run. -/
def questions_w : List Question :=
  (List.range 10).map (fun i => sample_question i "q")

/-- A countdown trace whose `is_time_up()` first reports true before the
fourth question (index 3). -/
def time_up_at_3 (i : Nat) : Bool := decide (3 ≤ i)

def selected_w (i : Nat) : Option String :=
  if i = 0 then some "a" else if i = 1 then some "B" else none

def elapsed_w (_ : Nat) : ℚ := 2

/-- A mastery record with 5 attempts, 4 correct, difficulty 3.0. -/
def mastery_w : TopicMastery := ⟨3, 5, 4, 0, 0⟩

def section_q1_w : SectionResult := ⟨"Quantitative 1", 20, 605, 80⟩
def section_rd_w : SectionResult := ⟨"Reading", 30, 590, 70⟩
def section_vb_w : SectionResult := ⟨"Verbal", 40, 600, 75⟩
def section_q2_w : SectionResult := ⟨"Quantitative 2", 21, 610, 81⟩

/-- A freshly created session: no score field populated yet. -/
def fresh_session : TestSession :=
  ⟨none, none, none, none, none, none, none, none, none, none⟩

def student_w : Student := ⟨"elementary", 3⟩
/-! Theorems settling the specification's claims. -/

/-- C5: `calculate_raw_score` returns `raw = correct − wrong×penalty`
floored at 0 when the level's configuration carries a wrong-answer
penalty, and `raw = correct` otherwise; on the middle level (penalty 0.25)
20 correct, 5 wrong, 0 skipped yield raw = 18.75. -/
theorem C5_raw_score_formula (answers : List Answer) (level : String) :
    (calculate_raw_score answers level).1 =
      (match LEVEL_CONFIGS level with
       | some cfg =>
         if cfg.has_penalty then
           max 0 (((calculate_raw_score answers level).2.1 : ℚ) -
             ((calculate_raw_score answers level).2.2.1 : ℚ) * cfg.penalty_amount)
         else ((calculate_raw_score answers level).2.1 : ℚ)
       | none => ((calculate_raw_score answers level).2.1 : ℚ)) ∧
    (calculate_raw_score scenarioAnswers "middle").1 = 75/4 := by
  constructor
  · rcases h : LEVEL_CONFIGS level with _ | cfg
    · simp [calculate_raw_score, h]
    · rcases hp : cfg.has_penalty
      · simp [calculate_raw_score, h, hp]
      · simp [calculate_raw_score, h, hp]
  · have hc : scenarioAnswers.countP (·.is_correct) = 20 := by decide
    have hw : scenarioAnswers.countP
        (fun a => a.selected_answer.isSome && !a.is_correct) = 5 := by decide
    have hm : LEVEL_CONFIGS "middle" = some ⟨"middle", 440, 710, true, 1/4⟩ := rfl
    simp only [calculate_raw_score, hc, hw, hm]
    norm_num

/-- C6 (counterexample): the partition identity
`correct + wrong + skipped = len(answers)` fails on an answer whose
`is_correct` flag is set although its selection is null — such a record is
counted both as correct and as skipped. -/
theorem C6_partition_counterexample :
    (calculate_raw_score [⟨0, none, true, 0⟩] "elementary").2.1 +
        (calculate_raw_score [⟨0, none, true, 0⟩] "elementary").2.2.1 +
        (calculate_raw_score [⟨0, none, true, 0⟩] "elementary").2.2.2 = 2 ∧
      ([(⟨0, none, true, 0⟩ : Answer)]).length = 1 := by
  decide

/-- C6 (amended): for every answer set in which a set `is_correct` flag
comes with a non-null selection — true of every answer the program
creates — the counts returned by `calculate_raw_score` satisfy
`correct + wrong + skipped = len(answers)`. -/
theorem C6_count_partition (answers : List Answer) (level : String)
    (h : ∀ a ∈ answers, a.is_correct = true → a.selected_answer.isSome) :
    (calculate_raw_score answers level).2.1 +
        (calculate_raw_score answers level).2.2.1 +
        (calculate_raw_score answers level).2.2.2 = answers.length := by
  simp only [calculate_raw_score]
  induction answers with
  | nil => simp
  | cons a as ih =>
    have ha := h a (by simp)
    have ih2 := ih (fun b hb => h b (by simp [hb]))
    rcases hc : a.is_correct with _ | _
    · rcases hs : a.selected_answer with _ | s <;>
        simp [List.countP_cons, hc, hs] <;> omega
    · rcases hs : a.selected_answer with _ | s
      · have hsome := ha hc
        rw [hs] at hsome
        simp at hsome
      · simp [List.countP_cons, hc, hs]
        omega

/-- C6 (witness): the amended partition identity at a concrete well-formed
answer set of one correct, one wrong and one skipped answer. -/
theorem C6_count_partition_witness :
    (calculate_raw_score
          [⟨0, some "A", true, 0⟩, ⟨1, some "B", false, 0⟩, ⟨2, none, false, 0⟩]
          "elementary").2.1 +
        (calculate_raw_score
          [⟨0, some "A", true, 0⟩, ⟨1, some "B", false, 0⟩, ⟨2, none, false, 0⟩]
          "elementary").2.2.1 +
        (calculate_raw_score
          [⟨0, some "A", true, 0⟩, ⟨1, some "B", false, 0⟩, ⟨2, none, false, 0⟩]
          "elementary").2.2.2 =
      ([⟨0, some "A", true, 0⟩, ⟨1, some "B", false, 0⟩,
        (⟨2, none, false, 0⟩ : Answer)]).length :=
  C6_count_partition _ "elementary" (by decide)

/-- Evaluation helper: the floor of an integer-valued rational. -/
theorem Rat_floor_intCast (z : Int) : (z : ℚ).floor = z := by
  rw [Rat.floor_def']
  simp

/-- Evaluation helper: Python `round` fixes integer-valued arguments. -/
theorem pyRound_int (z : Int) : pyRound (z : ℚ) = z := by
  simp [pyRound, Rat_floor_intCast]

/-- C2 (counterexample): with breakpoints only at grade 6, a grade-4 lookup
falls back to the table-free estimate (99 for a scaled score of 600)
instead of consulting the grade `4 + 2` table, whose policy value is 90 —
the search never reaches the original grade ±2. -/
theorem C2_adjacent_grades_counterexample :
    lookup_percentile (some grade_plus_two_table) 600 "elementary" "Verbal" 4 =
        fallback_percentile 600 "elementary" ∧
      fallback_percentile 600 "elementary" = 99 ∧
      grade_plus_two_table "elementary" "Verbal" 6 = [(300, 10), (600, 90)] ∧
      interpolate_percentile
        (grade_plus_two_table "elementary" "Verbal" 6) 600 = 90 ∧
      (99 : Int) ≠ 90 := by
  refine ⟨rfl, ?_, rfl, rfl, by decide⟩
  have hcfg : LEVEL_CONFIGS "elementary" =
      some ⟨"elementary", 300, 600, false, 0⟩ := rfl
  have h99 : pyRound (99 : ℚ) = 99 := by
    have h := pyRound_int 99
    push_cast at h
    exact h
  simp only [fallback_percentile, hcfg]
  norm_num [h99]

/-- C2 (amended): when the loaded tables contain no breakpoint list for the
exact grade, the lookup tries grades `grade−1`, `grade`, `grade+1` in that
order, interpolating in the first nonempty list found; only if all three
are empty does it fall back to the table-free estimate
`clamp(round(1 + 98×(scaled−min)/(max−min)), 1, 99)` (Python's
round-half-to-even).  Grades `grade−2` and `grade+2` are never consulted. -/
theorem C2_adjacent_grade_search (t : TableFn) (scaled_score : Int)
    (level section_name : String) (grade : Int) (cfg : LevelConfig)
    (hmiss : t level section_name grade = [])
    (hcfg : LEVEL_CONFIGS level = some cfg)
    (hne : cfg.score_max ≠ cfg.score_min) :
    lookup_percentile (some t) scaled_score level section_name grade =
      match [grade - 1, grade, grade + 1].find?
          (fun g => !(t level section_name g).isEmpty) with
      | some g => interpolate_percentile (t level section_name g) scaled_score
      | none => max 1 (min 99 (pyRound
          (((scaled_score : ℚ) - cfg.score_min) /
            ((cfg.score_max : ℚ) - cfg.score_min) * 98 + 1))) := by
  rcases hfind : [grade - 1, grade, grade + 1].find?
      (fun g => !(t level section_name g).isEmpty) with _ | g
  · simp only [lookup_percentile, hmiss, hfind, List.isEmpty_nil, if_true]
    simp only [fallback_percentile, hcfg]
    rw [if_neg hne]
  · have hne2 : (t level section_name g).isEmpty = false := by
      have h := List.find?_some hfind
      simpa using h
    simp only [lookup_percentile, hmiss, hfind, List.isEmpty_nil, if_true, hne2,
      Bool.false_eq_true, if_false]

/-- C2 (witness for the amended claim): a table with breakpoints only at
grade 3 serves a grade-4 lookup through the adjacent-grade search. -/
theorem C2_adjacent_grade_search_witness :
    lookup_percentile (some grade_minus_one_table) 450 "elementary" "Verbal" 4 =
      interpolate_percentile
        (grade_minus_one_table "elementary" "Verbal" 3) 450 := by
  have h := C2_adjacent_grade_search grade_minus_one_table 450 "elementary"
    "Verbal" 4 ⟨"elementary", 300, 600, false, 0⟩ (by decide) rfl (by decide)
  have e1 : (4 : Int) - 1 = 3 := by decide
  have e2 : (4 : Int) + 1 = 5 := by decide
  rw [e1, e2] at h
  have hfind : [(3 : Int), 4, 5].find?
      (fun g => !(grade_minus_one_table "elementary" "Verbal" g).isEmpty) =
        some 3 := by decide
  rw [hfind] at h
  exact h

/-- Helper: the duplicate-safe append of pool questions is the identity when
the incoming ids are fresh and mutually distinct. -/
theorem append_unseen_ids_eq_self (seen : List Nat) (l : List Question)
    (h1 : ∀ q ∈ l, q.id ∉ seen) (h2 : (l.map (·.id)).Nodup) :
    append_unseen_ids seen l = l := by
  induction l generalizing seen with
  | nil => rfl
  | cons q rest ih =>
    have hq : q.id ∉ seen := h1 q (by simp)
    simp only [List.map_cons, List.nodup_cons] at h2
    simp only [append_unseen_ids, if_neg hq]
    congr 1
    apply ih
    · intro p hp
      simp only [List.mem_cons, not_or]
      refine ⟨?_, h1 p (by simp [hp])⟩
      intro he
      exact h2.1 (he ▸ List.mem_map_of_mem _ hp)
    · exact h2.2

/-- C1 (counterexample): a generated question whose normalized stem equals
the stem of a question already chosen from the pool is *not* removed — the
batch is deduplicated only against itself, never against the questions
already chosen for the request. -/
theorem C1_dedup_counterexample :
    get_questions [dup_chosen] [] (some [dup_generated]) 2 =
        [dup_chosen, dup_generated] ∧
      normalized_stem dup_chosen = normalized_stem dup_generated := by
  constructor
  · rfl
  · decide

/-- C1 (amended): the generated batch is deduplicated by normalized stem
against itself only (survivors keep the first occurrence of each stem) and
the survivors are appended to the questions already chosen without any
comparison against their stems; no cross-batch historical stem index is
consulted.  In the spec's scenario — a request of 10 with 3 unseen at the
exact difficulty, 2 more (fresh, distinct ids) at other difficulties, and
a generated batch of 5 of which one duplicates another batch item's stem —
the returned list is those 9 questions. -/
theorem C1_within_batch_dedup (pool_exact pool_any generated : List Question)
    (h_exact : pool_exact.length = 3) (h_any : pool_any.length = 2)
    (h_ids : ∀ q ∈ pool_any, q.id ∉ pool_exact.map (·.id))
    (h_any_nodup : (pool_any.map (·.id)).Nodup)
    (h_gen : generated.length = 5)
    (h_dedup : (deduplicate generated).length = 4) :
    get_questions pool_exact pool_any (some generated) 10 =
        pool_exact ++ pool_any ++ deduplicate generated ∧
      (get_questions pool_exact pool_any (some generated) 10).length = 9 := by
  have htake_e : pool_exact.take 10 = pool_exact :=
    List.take_of_length_le (by omega)
  have happ : append_unseen_ids (pool_exact.map (·.id)) pool_any = pool_any :=
    append_unseen_ids_eq_self _ _ h_ids h_any_nodup
  have hmain : get_questions pool_exact pool_any (some generated) 10 =
      pool_exact ++ pool_any ++ deduplicate generated := by
    simp only [get_questions, htake_e]
    rw [if_neg (by omega)]
    have htake_a : pool_any.take (10 - pool_exact.length) = pool_any :=
      List.take_of_length_le (by omega)
    rw [htake_a, happ]
    rw [if_neg (by simp [h_exact, h_any])]
    rw [List.append_assoc]
    exact List.take_of_length_le (by simp [h_exact, h_any, h_dedup])
  refine ⟨hmain, ?_⟩
  rw [hmain]
  simp [h_exact, h_any, h_dedup]

/-- C1 (witness): the scenario at concrete pools — 3 exact-difficulty
questions, 2 any-difficulty questions, a generated batch of 5 with one
within-batch duplicate stem — returns exactly 9 questions. -/
theorem C1_within_batch_dedup_witness :
    get_questions pool_exact_w pool_any_w (some generated_w) 10 =
        pool_exact_w ++ pool_any_w ++ deduplicate generated_w ∧
      (get_questions pool_exact_w pool_any_w (some generated_w) 10).length = 9 :=
  C1_within_batch_dedup pool_exact_w pool_any_w generated_w (by decide)
    (by decide) (by decide) (by decide) (by decide) (by decide)

/-- C3: a topic's difficulty rises by exactly one 0.5 step, capped at 5.0,
precisely when the updated `total_attempted` has reached 5, the batch's
accuracy is ≥ 0.85 and the updated all-time accuracy is ≥ 0.80; whenever
any of these fails the difficulty does not increase. -/
theorem C3_difficulty_step_up (mastery : TopicMastery) (batch recent : List Bool)
    (hne : batch ≠ []) (hd : 1 ≤ mastery.difficulty_level) :
    ((MIN_QUESTIONS_FOR_ADJUST ≤ mastery.total_attempted + batch.length ∧
        DIFFICULTY_UP_THRESHOLD ≤ (batch.count true : ℚ) / (batch.length : ℚ) ∧
        (80/100 : ℚ) ≤ ((mastery.total_correct + batch.count true : ℕ) : ℚ) /
          ((mastery.total_attempted + batch.length : ℕ) : ℚ)) →
      (update_topic mastery batch recent).difficulty_level =
        min DIFFICULTY_MAX (mastery.difficulty_level + DIFFICULTY_STEP)) ∧
    (¬(MIN_QUESTIONS_FOR_ADJUST ≤ mastery.total_attempted + batch.length ∧
        DIFFICULTY_UP_THRESHOLD ≤ (batch.count true : ℚ) / (batch.length : ℚ) ∧
        (80/100 : ℚ) ≤ ((mastery.total_correct + batch.count true : ℕ) : ℚ) /
          ((mastery.total_attempted + batch.length : ℕ) : ℚ)) →
      (update_topic mastery batch recent).difficulty_level ≤
        mastery.difficulty_level) := by
  have hb : ¬(batch.isEmpty = true) := by simpa using hne
  have hlen : 0 < batch.length := List.length_pos.mpr hne
  have hlen2 : 0 < mastery.total_attempted + batch.length := by omega
  unfold update_topic
  rw [if_neg hb]
  simp only [if_pos hlen, if_pos hlen2]
  push_cast
  split_ifs with hmin hup hdown
  · constructor
    · intro _
      rfl
    · intro hncond
      exfalso
      apply hncond
      exact ⟨hmin, hup.1, hup.2⟩
  · constructor
    · rintro ⟨_, h2, h3⟩
      exfalso
      apply hup
      constructor
      · exact_mod_cast h2
      · exact_mod_cast h3
    · intro _
      have hstep : mastery.difficulty_level - DIFFICULTY_STEP ≤
          mastery.difficulty_level := by
        simp [DIFFICULTY_STEP]
      exact max_le (by simpa [DIFFICULTY_MIN] using hd) hstep
  · constructor
    · rintro ⟨_, h2, h3⟩
      exfalso
      apply hup
      constructor
      · exact_mod_cast h2
      · exact_mod_cast h3
    · intro _
      exact le_refl _
  · constructor
    · rintro ⟨h1, _, _⟩
      exact absurd h1 hmin
    · intro _
      exact le_refl _

/-- C3 (witness): a topic with 5 prior attempts (4 correct) and difficulty
3.0 receiving a batch of 5 all-correct answers — batch accuracy 1.0,
all-time accuracy 9/10 — ends at difficulty 3.5. -/
theorem C3_difficulty_step_up_witness :
    (update_topic mastery_w (List.replicate 5 true)
      (List.replicate 5 true)).difficulty_level = 7/2 := by
  have h := (C3_difficulty_step_up mastery_w (List.replicate 5 true)
    (List.replicate 5 true) (by decide) (by decide)).1 (by
      refine ⟨by decide, ?_, ?_⟩ <;>
        norm_num [mastery_w, DIFFICULTY_UP_THRESHOLD])
  rw [h]
  norm_num [DIFFICULTY_MAX, DIFFICULTY_STEP, mastery_w, min_def]

/-- Helper: one `_update_topic` call keeps the difficulty inside
`[1.0, 5.0]`. -/
theorem update_topic_difficulty_bounds (m : TopicMastery)
    (batch recent : List Bool)
    (h1 : 1 ≤ m.difficulty_level) (h2 : m.difficulty_level ≤ 5) :
    1 ≤ (update_topic m batch recent).difficulty_level ∧
      (update_topic m batch recent).difficulty_level ≤ 5 := by
  cases hbe : batch.isEmpty with
  | true =>
    simp only [update_topic, hbe, if_true]
    exact ⟨h1, h2⟩
  | false =>
    have hne : batch ≠ [] := by
      intro hnil
      rw [hnil] at hbe
      simp at hbe
    have hlen : 0 < batch.length := List.length_pos.mpr hne
    have hlen2 : 0 < m.total_attempted + batch.length := by omega
    unfold update_topic
    rw [if_neg (by simp [hbe])]
    simp only [if_pos hlen, if_pos hlen2]
    split_ifs with hmin hup hdown
    · refine ⟨le_min (by norm_num [DIFFICULTY_MAX]) ?_, ?_⟩
      · norm_num [DIFFICULTY_STEP]
        linarith
      · simp only [DIFFICULTY_MAX]
        exact min_le_left (5 : ℚ) (m.difficulty_level + DIFFICULTY_STEP)
    · refine ⟨le_max_left _ _, max_le (by norm_num [DIFFICULTY_MIN]) ?_⟩
      norm_num [DIFFICULTY_STEP]
      linarith
    · exact ⟨h1, h2⟩
    · exact ⟨h1, h2⟩

/-- C4: starting from a difficulty in `[1.0, 5.0]`, any sequence of
`_update_topic` calls — each given an arbitrary graded batch and an
arbitrary recent-answers window — leaves the difficulty in `[1.0, 5.0]`. -/
theorem C4_difficulty_invariant (m : TopicMastery)
    (updates : List (List Bool × List Bool))
    (h1 : 1 ≤ m.difficulty_level) (h2 : m.difficulty_level ≤ 5) :
    1 ≤ (updates.foldl
          (fun s u => update_topic s u.1 u.2) m).difficulty_level ∧
      (updates.foldl
          (fun s u => update_topic s u.1 u.2) m).difficulty_level ≤ 5 := by
  induction updates generalizing m with
  | nil => exact ⟨h1, h2⟩
  | cons u rest ih =>
    simp only [List.foldl_cons]
    have hstep := update_topic_difficulty_bounds m u.1 u.2 h1 h2
    exact ih _ hstep.1 hstep.2

/-- C4 (witness): two successive updates — an all-correct batch of 5 then
an all-wrong batch of 5 — keep a difficulty that starts at 3.0 inside
`[1.0, 5.0]`. -/
theorem C4_difficulty_invariant_witness :
    1 ≤ (([(List.replicate 5 true, List.replicate 5 true),
            (List.replicate 5 false, List.replicate 10 false)]).foldl
          (fun s u => update_topic s u.1 u.2) mastery_w).difficulty_level ∧
      (([(List.replicate 5 true, List.replicate 5 true),
            (List.replicate 5 false, List.replicate 10 false)]).foldl
          (fun s u => update_topic s u.1 u.2) mastery_w).difficulty_level ≤ 5 :=
  C4_difficulty_invariant mastery_w _ (by decide) (by decide)

/-- C10: `level_down` on an elementary student at grade ≤ 3 changes
nothing, so arbitrarily many repeated calls leave the student at
elementary grade ≤ 3 (the call only re-persists the identical record). -/
theorem C10_level_down_floor (student : Student) (n : Nat)
    (hlevel : student.level = "elementary") (hgrade : student.grade ≤ 3) :
    level_down^[n] student = student := by
  have hfix : level_down student = student := by
    unfold level_down
    rw [if_neg (by rw [hlevel]; decide), if_pos hlevel, if_neg (by omega)]
  exact Function.iterate_fixed hfix n

/-- C10 (witness): five `level_down` calls on an elementary grade-3 student
leave the record unchanged. -/
theorem C10_level_down_floor_witness :
    level_down^[5] student_w = student_w :=
  C10_level_down_floor student_w 5 rfl (by decide)

/-- Helper: if the timer first reports expiry before question `k` of the
remaining list, the loop answers the first `k` questions as if alone and
maps the rest to skipped answers in one pass. -/
theorem run_section_go_time_up_split (time_up : Nat → Bool)
    (selected : Nat → Option String) (elapsed : Nat → ℚ) :
    ∀ (k i : Nat) (qs : List Question), time_up (i + k) = true →
      (∀ j, j < k → time_up (i + j) = false) → k ≤ qs.length →
      run_section_go time_up selected elapsed i qs =
        run_section_go time_up selected elapsed i (qs.take k) ++
          (qs.drop k).map skip_answer := by
  intro k
  induction k with
  | zero =>
    intro i qs hk _ _
    rw [Nat.add_zero] at hk
    cases qs with
    | nil => simp [run_section_go]
    | cons q rest =>
      simp [run_section_go, hk]
  | succ k ih =>
    intro i qs hk hbefore hlen
    cases qs with
    | nil => simp at hlen
    | cons q rest =>
      have h0 : time_up i = false := by simpa using hbefore 0 (by omega)
      have hk2 : time_up ((i + 1) + k) = true := by
        have he : (i + 1) + k = i + (k + 1) := by omega
        rw [he]
        exact hk
      have hb2 : ∀ j, j < k → time_up ((i + 1) + j) = false := by
        intro j hj
        have he : (i + 1) + j = i + (j + 1) := by omega
        rw [he]
        exact hbefore (j + 1) (by omega)
      have hlen2 : k ≤ rest.length := by simpa using hlen
      simp only [run_section_go, h0, Bool.false_eq_true, if_false,
        List.take_succ_cons, List.drop_succ_cons]
      rw [ih (i + 1) rest hk2 hb2 hlen2]
      simp

/-- C7: once `is_time_up()` reports true before question `k` (0-based) is
presented, the section run equals the normal run of the first `k`
questions followed, in one pass, by a skipped answer for every remaining
question — null selection, `is_correct` false, zero elapsed time — and no
further question is presented. -/
theorem C7_time_expiry_bulk_skip (questions : List Question)
    (time_up : Nat → Bool) (selected : Nat → Option String)
    (elapsed : Nat → ℚ) (k : Nat) (hk : time_up k = true)
    (hbefore : ∀ j, j < k → time_up j = false)
    (hlen : k ≤ questions.length) :
    run_section questions time_up selected elapsed =
        run_section (questions.take k) time_up selected elapsed ++
          (questions.drop k).map skip_answer ∧
      ∀ a ∈ (questions.drop k).map skip_answer,
        a.selected_answer = none ∧ a.is_correct = false ∧
          a.time_spent_seconds = 0 := by
  constructor
  · exact run_section_go_time_up_split time_up selected elapsed k 0 questions
      (by simpa using hk) (by simpa using hbefore) hlen
  · intro a ha
    obtain ⟨q, _, rfl⟩ := List.mem_map.mp ha
    exact ⟨rfl, rfl, rfl⟩

/-- C7 (witness): ten questions with expiry first reported before the
fourth: the run is the normal run of the first three followed by exactly
seven skipped answers. -/
theorem C7_time_expiry_bulk_skip_witness :
    time_up_at_3 3 = true ∧
      run_section questions_w time_up_at_3 selected_w elapsed_w =
        run_section (questions_w.take 3) time_up_at_3 selected_w elapsed_w ++
          (questions_w.drop 3).map skip_answer ∧
      ((questions_w.drop 3).map skip_answer).length = 7 :=
  ⟨by decide,
    (C7_time_expiry_bulk_skip questions_w time_up_at_3 selected_w elapsed_w 3
      (by decide) (by decide) (by decide)).1,
    by decide⟩

/-- Helper: any answer the question loop emits with a set correctness flag
comes from a presented question whose correct letter it matches
case-insensitively through a non-empty selection. -/
theorem run_section_go_correct_flag (time_up : Nat → Bool)
    (selected : Nat → Option String) (elapsed : Nat → ℚ) :
    ∀ (qs : List Question) (i : Nat) (a : Answer),
      a ∈ run_section_go time_up selected elapsed i qs →
      a.is_correct = true →
      ∃ q ∈ qs, q.id = a.question_id ∧ ∃ s, a.selected_answer = some s ∧
        s.isEmpty = false ∧ py_upper s = py_upper q.correct_answer := by
  intro qs
  induction qs with
  | nil =>
    intro i a ha
    simp [run_section_go] at ha
  | cons q rest ih =>
    intro i a ha hc
    rw [run_section_go] at ha
    by_cases ht : time_up i = true
    · rw [if_pos ht] at ha
      obtain ⟨p, _, rfl⟩ := List.mem_map.mp ha
      simp [skip_answer] at hc
    · rw [if_neg ht] at ha
      rcases List.mem_cons.mp ha with rfl | hmem
      · refine ⟨q, by simp, rfl, ?_⟩
        rcases hsel : selected i with _ | s
        · simp [answered_answer, hsel] at hc
        · by_cases hemp : s.isEmpty = true
          · simp [answered_answer, hsel, hemp] at hc
          · refine ⟨s, by simp [answered_answer, hsel], by simpa using hemp, ?_⟩
            simp [answered_answer, hsel, hemp] at hc
            exact hc
      · obtain ⟨p, hp, hrest⟩ := ih (i + 1) a hmem hc
        exact ⟨p, by simp [hp], hrest⟩

/-- C9: every answer the question loop records with `is_correct` true
belongs to a presented question and carries a non-null, non-empty
selection equal to that question's correct letter up to case; hence every
answer with a null selection (explicit skip or bulk time-expiry skip) has
`is_correct` false. -/
theorem C9_correct_flag_invariant (questions : List Question)
    (time_up : Nat → Bool) (selected : Nat → Option String) (elapsed : Nat → ℚ)
    (a : Answer) (ha : a ∈ run_section questions time_up selected elapsed)
    (hc : a.is_correct = true) :
    ∃ q ∈ questions, q.id = a.question_id ∧ ∃ s, a.selected_answer = some s ∧
      s.isEmpty = false ∧ py_upper s = py_upper q.correct_answer :=
  run_section_go_correct_flag time_up selected elapsed questions 0 a ha hc

/-- C9 (witness): in the concrete ten-question run, the first recorded
answer is correct via the lowercase selection `"a"` against the correct
letter `"A"`. -/
theorem C9_correct_flag_invariant_witness :
    answered_answer (sample_question 0 "q") (some "a") 2 ∈
        run_section questions_w time_up_at_3 selected_w elapsed_w ∧
      ∃ q ∈ questions_w,
        q.id = (answered_answer (sample_question 0 "q") (some "a") 2).question_id ∧
        ∃ s, (answered_answer (sample_question 0 "q")
            (some "a") 2).selected_answer = some s ∧
          s.isEmpty = false ∧ py_upper s = py_upper q.correct_answer :=
  ⟨by decide,
    C9_correct_flag_invariant questions_w time_up_at_3 selected_w elapsed_w
      (answered_answer (sample_question 0 "q") (some "a") 2)
      (by decide) (by decide)⟩

/-- Helper: a present scaled score contributes its own value to the total
(`if s:` adds 0 both for `None` and for 0). -/
theorem truthy_contribution_some (v : Int) :
    truthy_contribution (some v) = v := by
  by_cases h : v = 0 <;> simp [truthy_contribution, h]

/-- C8: finalizing a full test whose section results are a first
quantitative sub-section, a reading section, a verbal section and a second
quantitative sub-section (the middle-level order) sums the two
quantitative raw scores, floor-averages (`//`) their scaled scores and
percentiles, overwrites the verbal and reading fields, and totals the
three scaled fields. -/
theorem C8_full_test_aggregation (session : TestSession)
    (r1 rd vb r2 : SectionResult)
    (h1 : map_section_name_to_score_field r1.section_name = "quantitative")
    (h2 : map_section_name_to_score_field rd.section_name = "reading")
    (h3 : map_section_name_to_score_field vb.section_name = "verbal")
    (h4 : map_section_name_to_score_field r2.section_name = "quantitative")
    (hfresh : session.quantitative_raw = none) :
    finalize_full_test session [r1, rd, vb, r2] =
      { session with
        verbal_raw := some vb.raw_score
        verbal_scaled := some vb.scaled_score
        verbal_percentile := some vb.percentile
        quantitative_raw := some (r1.raw_score + r2.raw_score)
        quantitative_scaled := some ((r1.scaled_score + r2.scaled_score).fdiv 2)
        quantitative_percentile := some ((r1.percentile + r2.percentile).fdiv 2)
        reading_raw := some rd.raw_score
        reading_scaled := some rd.scaled_score
        reading_percentile := some rd.percentile
        total_scaled := some (vb.scaled_score +
          (r1.scaled_score + r2.scaled_score).fdiv 2 + rd.scaled_score) } := by
  have s1 : apply_section_result session r1 =
      { session with
        quantitative_raw := some r1.raw_score
        quantitative_scaled := some r1.scaled_score
        quantitative_percentile := some r1.percentile } := by
    simp only [apply_section_result, h1, hfresh, if_true, eq_self_iff_true]
  have s2 : ∀ s : TestSession,
      apply_section_result s rd =
      { s with
        reading_raw := some rd.raw_score
        reading_scaled := some rd.scaled_score
        reading_percentile := some rd.percentile } := by
    intro s
    simp [apply_section_result, h2]
  have s3 : ∀ s : TestSession,
      apply_section_result s vb =
      { s with
        verbal_raw := some vb.raw_score
        verbal_scaled := some vb.scaled_score
        verbal_percentile := some vb.percentile } := by
    intro s
    simp [apply_section_result, h3]
  have s4 : ∀ s : TestSession, s.quantitative_raw = some r1.raw_score →
      s.quantitative_scaled = some r1.scaled_score →
      s.quantitative_percentile = some r1.percentile →
      apply_section_result s r2 =
      { s with
        quantitative_raw := some (r1.raw_score + r2.raw_score)
        quantitative_scaled := some ((r1.scaled_score + r2.scaled_score).fdiv 2)
        quantitative_percentile :=
          some ((r1.percentile + r2.percentile).fdiv 2) } := by
    intro s hr hs hp
    simp only [apply_section_result, h4, if_true, eq_self_iff_true, hr, hs, hp,
      or_zero, Option.getD_some]
  simp only [finalize_full_test, List.foldl_cons, List.foldl_nil]
  rw [s1, s2 _, s3, s4 _ rfl rfl rfl]
  simp [truthy_contribution_some]

/-- C8 (witness): two quantitative sub-sections scoring 605 and 610 scaled
average to 607 by floor division (dropping the half point), raw scores 20
and 21 sum to 41, percentiles 80 and 81 average to 80, and the total is
600 + 607 + 590. -/
theorem C8_full_test_aggregation_witness :
    finalize_full_test fresh_session
        [section_q1_w, section_rd_w, section_vb_w, section_q2_w] =
      ⟨some 40, some 600, some 75, some 41, some 607, some 80,
        some 30, some 590, some 70, some 1797⟩ := by
  have h := C8_full_test_aggregation fresh_session section_q1_w section_rd_w
    section_vb_w section_q2_w (by decide) (by decide) (by decide) (by decide)
    rfl
  rw [h]
  have e1 : ((605 : Int) + 610).fdiv 2 = 607 := by decide
  have e2 : ((80 : Int) + 81).fdiv 2 = 80 := by decide
  simp only [section_q1_w, section_rd_w, section_vb_w, section_q2_w, e1, e2]
  norm_num
